import Mathlib

/-!
Shallow embedding of the balance-and-subscription consistency core of the
tip-koro-connect donation platform.

The four persisted entities (users, donations, subscriptions, withdrawals)
are modelled as lists of records inside a single Store.  Each request
handler of the source (the donation intake edge function, the subscription
intake edge function, the withdrawal intake edge function, the gateway
webhook reconciler, and the admin approve/reject action) is embedded as a
pure function from a Store (plus the request payload and the ambient
request-time values) to a result and an updated Store.

Modelling conventions:
- monetary amounts are Int (the source uses JS numbers for whole currency
  units);
- timestamps and dates live on one Int time scale; the request-time value
  produced by the JS Date constructor is passed in as a parameter called
  now, and stored dates are Int values on the same scale, so the source
  comparisons paidUntil >= today and paid_until < now translate directly;
- JS calendar month addition (setMonth) is passed in as an explicit
  function parameter am : Int -> Nat -> Int where the theorems range over
  every such function, since no claim depends on the length of a month;
- audit-only columns that no control flow ever reads (updated_at,
  created_at) are not modelled;
- row ids generated by the datastore are passed in as a newId parameter;
- fallible datastore writes that the source branches on are driven by
  explicit failure flags; a flag set to false means the write succeeds;
- presentation-only user columns (username, bio, images, goal_amount) are
  omitted.
-/

/-- A row of the users table: role, withdrawable balance and the
denormalized subscription mirror fields. -/
structure User where
  id : Nat
  role : String
  current_amount : Int
  subscription_status : String
  subscription_expires_at : Option Int
deriving Repr, DecidableEq

/-- A row of the donations table. -/
structure Donation where
  id : Nat
  creator_id : Nat
  amount : Int
  donor_name : Option String
  donor_email : Option String
  message : Option String
  is_anonymous : Bool
  payment_status : String
  txn_id : String
  payment_id : String
deriving Repr, DecidableEq

/-- A row of the subscriptions table (at most one per creator). -/
structure Subscription where
  id : Nat
  user_id : Nat
  amount : Int
  paid_until : Int
  is_active : Bool
  last_payment_txn_id : String
  status : String
deriving Repr, DecidableEq

/-- A row of the withdrawals table. -/
structure Withdrawal where
  id : Nat
  user_id : Nat
  amount : Int
  method : String
  bank_name : String
  bank_account_name : String
  bank_account_number : String
  status : String
  processed_at : Option Int
deriving Repr, DecidableEq

/-- The whole datastore. -/
structure Store where
  users : List User
  donations : List Donation
  subscriptions : List Subscription
  withdrawals : List Withdrawal
deriving Repr, DecidableEq

/-- JS String.startsWith, written over the character lists so that it
reduces by decide. -/
def strStartsWith (s tag : String) : Bool :=
  tag.data.isPrefixOf s.data

/-- The per-row effect of the webhook update on donations:
update donations set payment_status = st where txn_id = tid. -/
def markDonation (tid st : String) (d : Donation) : Donation :=
  if d.txn_id == tid then { d with payment_status := st } else d

/-- The per-row effect of the webhook update on subscriptions:
update subscriptions set is_active = b where last_payment_txn_id = tid. -/
def markSubscription (tid : String) (b : Bool) (x : Subscription) : Subscription :=
  if x.last_payment_txn_id == tid then { x with is_active := b } else x

/-- The rupantorpay-webhook handler.  The gateway re-verification outcome
is passed in as verStatus (the status field) and verPaymentStatus (the
payment_status field); the completed branch runs when verStatus is true
and verPaymentStatus is the string completed, otherwise the failed branch
runs.  Dispatch is purely by the DON_ / SUB_ tag of the transaction id.
The handler never touches the users table. -/
def processWebhook (s : Store) (transaction_id : String)
    (verStatus : Bool) (verPaymentStatus : String) : Store :=
  if verStatus && (verPaymentStatus == "completed") then
    let s1 :=
      if strStartsWith transaction_id "DON_" then
        { s with donations := s.donations.map (markDonation transaction_id "completed") }
      else s
    if strStartsWith transaction_id "SUB_" then
      { s1 with subscriptions := s1.subscriptions.map (markSubscription transaction_id true) }
    else s1
  else
    let s1 :=
      if strStartsWith transaction_id "DON_" then
        { s with donations := s.donations.map (markDonation transaction_id "failed") }
      else s
    if strStartsWith transaction_id "SUB_" then
      { s1 with subscriptions := s1.subscriptions.map (markSubscription transaction_id false) }
    else s1

/-- Mapping an idempotent per-row update twice is the same as mapping it
once. -/
theorem map_idem {α : Type} (g : α → α) (h : ∀ x, g (g x) = g x) (l : List α) :
    (l.map g).map g = l.map g := by
  induction l with
  | nil => rfl
  | cons a t ih => simp [List.map, h a, ih]

theorem markDonation_idem (tid st : String) (d : Donation) :
    markDonation tid st (markDonation tid st d) = markDonation tid st d := by
  unfold markDonation
  by_cases h : d.txn_id == tid <;> simp [h]

theorem markSubscription_idem (tid : String) (b : Bool) (x : Subscription) :
    markSubscription tid b (markSubscription tid b x) = markSubscription tid b x := by
  unfold markSubscription
  by_cases h : x.last_payment_txn_id == tid <;> simp [h]

theorem sub_tag_not_don_tag (tid : String) (h : strStartsWith tid "SUB_" = true) :
    strStartsWith tid "DON_" = false := by
  unfold strStartsWith at h ⊢
  cases htid : tid.data with
  | nil => rw [htid] at h; simp [List.isPrefixOf] at h
  | cons c t =>
    rw [htid] at h
    simp [List.isPrefixOf] at h ⊢
    intro hc
    subst hc
    simp at h

theorem don_tag_not_sub_tag (tid : String) (h : strStartsWith tid "DON_" = true) :
    strStartsWith tid "SUB_" = false := by
  unfold strStartsWith at h ⊢
  cases htid : tid.data with
  | nil => rw [htid] at h; simp [List.isPrefixOf] at h
  | cons c t =>
    rw [htid] at h
    simp [List.isPrefixOf] at h ⊢
    intro hc
    subst hc
    simp at h

/-- Claim C5: webhook reconciliation is idempotent for terminal states;
delivering the same verified-completed result twice for a transaction id
leaves the store exactly as one delivery does, so nothing is credited or
flipped twice. -/
theorem webhook_completed_idempotent (s : Store) (tid : String) :
    processWebhook (processWebhook s tid true "completed") tid true "completed" =
      processWebhook s tid true "completed" := by
  unfold processWebhook
  by_cases hd : strStartsWith tid "DON_" <;> by_cases hs : strStartsWith tid "SUB_" <;>
    simp [hd, hs, map_idem _ (markDonation_idem tid "completed"),
      map_idem _ (markSubscription_idem tid true)]

/-- Claim C6: webhook dispatch is isolated by transaction-id tag; a SUB_
transaction id never mutates a donation row and a DON_ transaction id
never mutates a subscription row, for every payload and verification
outcome. -/
theorem webhook_tag_isolated (s : Store) (tid : String) (vs : Bool) (vp : String) :
    (strStartsWith tid "SUB_" = true → (processWebhook s tid vs vp).donations = s.donations) ∧
    (strStartsWith tid "DON_" = true → (processWebhook s tid vs vp).subscriptions = s.subscriptions) := by
  constructor
  · intro h
    have hd := sub_tag_not_don_tag tid h
    unfold processWebhook
    by_cases hc : vs && (vp == "completed") <;> simp [hc, hd, h]
  · intro h
    have hs := don_tag_not_sub_tag tid h
    unfold processWebhook
    by_cases hc : vs && (vp == "completed") <;> simp [hc, hs, h]

def w6Store : Store :=
  { users := [],
    donations := [{ id := 1, creator_id := 1, amount := 50, donor_name := none,
                    donor_email := none, message := none, is_anonymous := false,
                    payment_status := "pending", txn_id := "DON_9",
                    payment_id := "p" }],
    subscriptions := [{ id := 1, user_id := 1, amount := 100, paid_until := 10,
                        is_active := false, last_payment_txn_id := "SUB_77",
                        status := "pending" }],
    withdrawals := [] }

/-- Witness for claim C6 at a concrete store and concrete transaction
ids. -/
theorem webhook_tag_isolated_witness :
    (processWebhook w6Store "SUB_77" true "completed").donations = w6Store.donations ∧
    (processWebhook w6Store "DON_9" true "completed").subscriptions = w6Store.subscriptions := by
  constructor
  · exact (webhook_tag_isolated w6Store "SUB_77" true "completed").1 (by decide)
  · exact (webhook_tag_isolated w6Store "DON_9" true "completed").2 (by decide)

def c1Store : Store :=
  { users := [{ id := 1, role := "creator", current_amount := 0,
                subscription_status := "active", subscription_expires_at := some 100 }],
    donations := [{ id := 1, creator_id := 1, amount := 50, donor_name := none,
                    donor_email := none, message := none, is_anonymous := false,
                    payment_status := "pending", txn_id := "DON_1_100",
                    payment_id := "rupantorpay_DON_1_100" }],
    subscriptions := [], withdrawals := [] }

/-- Claim C1, evaluated at the failing input: a gateway donation of 50 to
a creator whose balance is 0 sits pending; the webhook verifies the
transaction as completed; the reconciler flips payment_status to
completed but leaves the users table, and so the creator balance,
entirely unchanged.  The balance credit the claim requires never
happens in the reconciler. -/
theorem webhook_completed_no_balance_credit :
    (processWebhook c1Store "DON_1_100" true "completed").users = c1Store.users ∧
    (processWebhook c1Store "DON_1_100" true "completed").donations =
      [{ id := 1, creator_id := 1, amount := 50, donor_name := none, donor_email := none,
         message := none, is_anonymous := false, payment_status := "completed",
         txn_id := "DON_1_100", payment_id := "rupantorpay_DON_1_100" }] := by
  decide

/-- Result of the request-withdrawal edge function: either the id of the
created withdrawal row, or an http status, a message and (for the
insufficient-balance rejection) the available balance diagnostic. -/
inductive WResult where
  | ok (withdrawal_id : Nat)
  | err (httpStatus : Nat) (message : String) (available_balance : Option Int)
deriving Repr, DecidableEq

/-- Failure injection for the two fallible datastore writes of the
request-withdrawal handler: the withdrawals insert and the users balance
update. -/
structure WFails where
  insertFails : Bool
  updateFails : Bool
deriving Repr, DecidableEq

/-- The request-withdrawal edge function.  uid is the authenticated
caller.  Mirrors the source exactly: validate the amount, fetch the
caller profile (role and fresh balance), reject non-creators and
insufficient balance, insert the pending withdrawal row, decrement the
balance, and on a failed decrement delete the row just inserted and
report an error. -/
def requestWithdrawal (fails : WFails) (newId : Nat) (s : Store) (uid : Nat)
    (amount : Int) (method bank_name bank_account_name bank_account_number : String) :
    WResult × Store :=
  if amount ≤ 0 then
    (WResult.err 400 "Invalid withdrawal amount" none, s)
  else
    match s.users.find? (fun u => u.id == uid) with
    | none => (WResult.err 400 "Only creators can request withdrawals" none, s)
    | some userProfile =>
      if !(userProfile.role == "creator") then
        (WResult.err 400 "Only creators can request withdrawals" none, s)
      else if userProfile.current_amount < amount then
        (WResult.err 400 "Insufficient balance" (some userProfile.current_amount), s)
      else if fails.insertFails then
        (WResult.err 500 "Failed to create withdrawal request" none, s)
      else
        let w : Withdrawal :=
          { id := newId, user_id := uid, amount := amount, method := method,
            bank_name := bank_name, bank_account_name := bank_account_name,
            bank_account_number := bank_account_number, status := "pending",
            processed_at := none }
        let s1 := { s with withdrawals := s.withdrawals ++ [w] }
        if fails.updateFails then
          (WResult.err 500 "Failed to process withdrawal request" none,
           { s1 with withdrawals := s1.withdrawals.filter (fun x => !(x.id == newId)) })
        else
          (WResult.ok newId,
           { s1 with users := s1.users.map (fun u =>
               if u.id == uid then { u with current_amount := u.current_amount - amount }
               else u) })

/-- find? commutes with mapping a per-row update that cannot change the
value of the search predicate. -/
theorem find?_map_invariant {α : Type} (g : α → α) (p : α → Bool)
    (h : ∀ x, p (g x) = p x) (l : List α) :
    (l.map g).find? p = (l.find? p).map g := by
  induction l with
  | nil => rfl
  | cons a t ih =>
    by_cases hp : p a
    · simp [List.find?, h a, hp]
    · simp [List.find?, h a, hp, ih]

/-- Claim C2 (amended): with the datastore writes succeeding, a creator
request for more than the fresh balance is rejected with the available
balance as diagnostic and the whole store unchanged, and a request for a
positive amount exactly equal to the balance succeeds and leaves the
balance at exactly 0. -/
theorem withdrawal_balance_boundary (newId uid : Nat) (s : Store) (amount : Int)
    (method bn ban bno : String) (u : User)
    (hfind : s.users.find? (fun x => x.id == uid) = some u)
    (hrole : u.role = "creator") (hnn : 0 ≤ u.current_amount) :
    (u.current_amount < amount →
      requestWithdrawal ⟨false, false⟩ newId s uid amount method bn ban bno =
        (WResult.err 400 "Insufficient balance" (some u.current_amount), s)) ∧
    (0 < amount → amount = u.current_amount →
      (requestWithdrawal ⟨false, false⟩ newId s uid amount method bn ban bno).1 =
        WResult.ok newId ∧
      (requestWithdrawal ⟨false, false⟩ newId s uid amount method bn ban bno).2.users.find?
          (fun x => x.id == uid) = some { u with current_amount := 0 }) := by
  constructor
  · intro hlt
    unfold requestWithdrawal
    rw [if_neg (by omega : ¬ amount ≤ 0)]
    rw [hfind]
    simp [hrole, hlt]
  · intro hpos heq
    have hnl : ¬ (u.current_amount < amount) := by omega
    have hpu : (u.id == uid) = true := by
      have := List.find?_some hfind
      simpa using this
    have hinv : ∀ x : User,
        ((if x.id == uid then { x with current_amount := x.current_amount - amount }
          else x).id == uid) = (x.id == uid) := by
      intro x
      by_cases hx : x.id == uid <;> simp [hx]
    constructor
    · unfold requestWithdrawal
      rw [if_neg (by omega : ¬ amount ≤ 0)]
      rw [hfind]
      simp [hrole, hnl]
    · have hstep : (requestWithdrawal ⟨false, false⟩ newId s uid amount method bn ban bno).2.users
          = s.users.map (fun x =>
              if x.id == uid then { x with current_amount := x.current_amount - amount }
              else x) := by
        unfold requestWithdrawal
        rw [if_neg (by omega : ¬ amount ≤ 0)]
        rw [hfind]
        simp [hrole, hnl]
      rw [hstep, find?_map_invariant _ _ hinv, hfind]
      simp [hpu, heq]
      intro h
      exact absurd (by simpa using hpu) h

def c2ZeroStore : Store :=
  { users := [{ id := 1, role := "creator", current_amount := 0,
                subscription_status := "none", subscription_expires_at := none }],
    donations := [], subscriptions := [], withdrawals := [] }

/-- Counterexample to claim C2 as stated: a creator whose balance is 0
requests a withdrawal of 0, so the requested amount equals the current
balance, yet the request does not succeed; the amount validation rejects
it as an invalid amount before the balance is consulted, and the store is
unchanged. -/
theorem withdrawal_zero_equal_balance_rejected :
    (requestWithdrawal ⟨false, false⟩ 1 c2ZeroStore 1 0 "bkash" "" "" "").1 =
      WResult.err 400 "Invalid withdrawal amount" none ∧
    (requestWithdrawal ⟨false, false⟩ 1 c2ZeroStore 1 0 "bkash" "" "" "").2 = c2ZeroStore := by
  decide

def c2Store : Store :=
  { users := [{ id := 1, role := "creator", current_amount := 100,
                subscription_status := "none", subscription_expires_at := none }],
    donations := [], subscriptions := [], withdrawals := [] }

def c2User : User :=
  { id := 1, role := "creator", current_amount := 100,
    subscription_status := "none", subscription_expires_at := none }

/-- Witness for claim C2 at a creator with balance 100: a request of 150
is rejected with the available balance 100 and no change, and a request
of exactly 100 succeeds. -/
theorem withdrawal_balance_boundary_witness :
    requestWithdrawal ⟨false, false⟩ 7 c2Store 1 150 "bkash" "b" "n" "a" =
      (WResult.err 400 "Insufficient balance" (some 100), c2Store) ∧
    (requestWithdrawal ⟨false, false⟩ 7 c2Store 1 100 "bkash" "b" "n" "a").1 =
      WResult.ok 7 := by
  constructor
  · exact (withdrawal_balance_boundary 7 1 c2Store 150 "bkash" "b" "n" "a" c2User
      (by decide) rfl (by decide)).1 (by decide)
  · exact ((withdrawal_balance_boundary 7 1 c2Store 100 "bkash" "b" "n" "a" c2User
      (by decide) rfl (by decide)).2 (by decide) (by decide)).1

/-- Claim C3: when the withdrawal row insert succeeds but the balance
decrement fails, the handler deletes the row it created and reports an
error; provided the fresh row id does not collide with an existing row,
the final store is exactly the initial store, so there is neither a
withdrawal row without its debit nor a debit without its row. -/
theorem filter_drops_only_fresh_row (l : List Withdrawal) (w : Withdrawal) (newId : Nat)
    (hfresh : ∀ x ∈ l, x.id ≠ newId) (hw : w.id = newId) :
    (l ++ [w]).filter (fun x => !(x.id == newId)) = l := by
  rw [List.filter_append]
  have h1 : l.filter (fun x => !(x.id == newId)) = l := by
    rw [List.filter_eq_self]
    intro a ha
    simpa using hfresh a ha
  have h2 : [w].filter (fun x => !(x.id == newId)) = [] := by
    simp [hw]
  rw [h1, h2, List.append_nil]

theorem withdrawal_rollback (newId uid : Nat) (s : Store) (amount : Int)
    (method bn ban bno : String)
    (hfresh : ∀ w ∈ s.withdrawals, w.id ≠ newId) :
    (requestWithdrawal ⟨false, true⟩ newId s uid amount method bn ban bno).2 = s ∧
    ∃ c m b, (requestWithdrawal ⟨false, true⟩ newId s uid amount method bn ban bno).1 =
      WResult.err c m b := by
  unfold requestWithdrawal
  by_cases h0 : amount ≤ 0
  · simp [h0]
  · rw [if_neg h0]
    cases hfind : s.users.find? (fun x => x.id == uid) with
    | none => simp
    | some up =>
      by_cases hrole : (up.role == "creator")
      · by_cases hbal : up.current_amount < amount
        · simp [hrole, hbal]
        · have hfilter := filter_drops_only_fresh_row s.withdrawals
            { id := newId, user_id := uid, amount := amount, method := method,
              bank_name := bn, bank_account_name := ban, bank_account_number := bno,
              status := "pending", processed_at := none } newId hfresh rfl
          simp [hrole, hbal, hfilter]
      · have hrole2 : (up.role == "creator") = false := by simpa using hrole
        simp [hrole2]

def c3Store : Store :=
  { users := [{ id := 1, role := "creator", current_amount := 100,
                subscription_status := "none", subscription_expires_at := none }],
    donations := [], subscriptions := [], withdrawals := [] }

/-- Witness for claim C3: a valid request for 50 against a balance of 100
whose balance decrement fails leaves the store exactly as it was and
reports an error. -/
theorem withdrawal_rollback_witness :
    (requestWithdrawal ⟨false, true⟩ 5 c3Store 1 50 "nagad" "" "" "").2 = c3Store ∧
    (requestWithdrawal ⟨false, true⟩ 5 c3Store 1 50 "nagad" "" "" "").1 =
      WResult.err 500 "Failed to process withdrawal request" none := by
  constructor
  · exact (withdrawal_rollback 5 1 c3Store 50 "nagad" "" "" ""
      (by intro w hw; simp [c3Store] at hw)).1
  · decide

/-- First eight characters of an entity id, as in substring(0, 8) applied
to the uuid in the source; ids are Nat here so the decimal rendering
stands in for the uuid text. -/
def idFrag (n : Nat) : String := (toString n).take 8

/-- Transaction id of the gateway donation path. -/
def donationGatewayTxnId (creator_id : Nat) (nowMs : Int) : String :=
  "DON_" ++ (idFrag creator_id ++ ("_" ++ toString nowMs))

/-- Transaction id of the gateway subscription path. -/
def subscriptionGatewayTxnId (user_id : Nat) (nowMs : Int) : String :=
  "SUB_" ++ (idFrag user_id ++ ("_" ++ toString nowMs))

/-- Transaction id of the simulated subscription path. -/
def subscriptionSimulatedTxnId (nowMs : Int) (randSuffix : String) : String :=
  "SUB_" ++ (toString nowMs ++ ("_" ++ randSuffix))

/-- Transaction id of the simulated donation path; note the source tags
it TXN_, not DON_. -/
def donationSimulatedTxnId (nowMs : Int) (randSuffix : String) : String :=
  "TXN_" ++ (toString nowMs ++ ("_" ++ randSuffix))

theorem startsWith_append (tag rest : String) : strStartsWith (tag ++ rest) tag = true := by
  unfold strStartsWith
  rw [String.data_append]
  simp [ List.isPrefixOf_iff_prefix]

/-- Counterexample to claim C8 as stated: the transaction id generated by
the simulated donation path is not tagged DON_; at timestamp
1734000000000 and random suffix ABC123 it is TXN_1734000000000_ABC123,
which does not start with DON_. -/
theorem simulated_donation_txn_id_not_don_tagged :
    strStartsWith (donationSimulatedTxnId 1734000000000 "ABC123") "DON_" = false := by
  decide

/-- Claim C8 (amended): the gateway donation id is tagged DON_, the
gateway subscription id and the simulated subscription id are tagged
SUB_, but the simulated donation id is tagged TXN_ rather than DON_, so
only the first three are routable by the reconciler tag dispatch. -/
theorem txn_id_tagging (creator_id user_id : Nat) (nowMs : Int) (randSuffix : String) :
    strStartsWith (donationGatewayTxnId creator_id nowMs) "DON_" = true ∧
    strStartsWith (subscriptionGatewayTxnId user_id nowMs) "SUB_" = true ∧
    strStartsWith (subscriptionSimulatedTxnId nowMs randSuffix) "SUB_" = true ∧
    strStartsWith (donationSimulatedTxnId nowMs randSuffix) "TXN_" = true := by
  exact ⟨startsWith_append "DON_" _, startsWith_append "SUB_" _,
    startsWith_append "SUB_" _, startsWith_append "TXN_" _⟩

/-- Result of the create-subscription edge function. -/
inductive SResult where
  | ok (txn_id : String) (subscription_id : Nat) (amount : Int) (payment_url : String)
  | err (httpStatus : Nat) (message : String)
deriving Repr, DecidableEq

/-- The gateway-path create-subscription edge function.  am is the JS
calendar month addition (setMonth applied to a date), gatewayOk the
outcome of the checkout initiation, now the request-time date, newId the
row id a fresh insert receives, uid the authenticated caller, and
duration_months the requested duration (the source defaults it to 1 when
absent).  Mirrors the source: role check, txn id generation, checkout
call, upsert of the single subscription row with is_active set to false
pending the webhook and paid_until extended from the later of the
existing paid_until and today, then the unconditional denormalized
mirror write on the user row using the from-today expiry. -/
def createSubscriptionGateway (am : Int → Nat → Int) (gatewayOk : Bool)
    (paymentUrl : String) (now : Int) (newId : Nat) (s : Store) (uid : Nat)
    (duration_months : Nat) : SResult × Store :=
  match s.users.find? (fun u => u.id == uid) with
  | none => (SResult.err 400 "Only creators can purchase subscriptions", s)
  | some userProfile =>
    if !(userProfile.role == "creator") then
      (SResult.err 400 "Only creators can purchase subscriptions", s)
    else
      let txnId := subscriptionGatewayTxnId uid now
      let subscriptionAmount : Int := (100 : Int) * duration_months
      if !gatewayOk then
        (SResult.err 500 "Internal server error", s)
      else
        let paidUntil := am now duration_months
        match s.subscriptions.find? (fun x => x.user_id == uid) with
        | some existingSubscription =>
          let extendFrom :=
            if now < existingSubscription.paid_until then existingSubscription.paid_until
            else now
          let newPaidUntil := am extendFrom duration_months
          let s1 : Store := { s with subscriptions := s.subscriptions.map (fun (x : Subscription) =>
              if x.id == existingSubscription.id then
                { x with
                  paid_until := newPaidUntil,
                  is_active := false,
                  last_payment_txn_id := txnId }
              else x) }
          let s2 : Store := { s1 with users := s1.users.map (fun (u : User) =>
              if u.id == uid then
                { u with
                  subscription_status := "active",
                  subscription_expires_at := some paidUntil }
              else u) }
          (SResult.ok txnId existingSubscription.id subscriptionAmount paymentUrl, s2)
        | none =>
          let s1 : Store := { s with subscriptions := s.subscriptions ++
              [{ id := newId, user_id := uid, amount := subscriptionAmount,
                 paid_until := paidUntil, is_active := false,
                 last_payment_txn_id := txnId, status := "pending" }] }
          let s2 : Store := { s1 with users := s1.users.map (fun (u : User) =>
              if u.id == uid then
                { u with
                  subscription_status := "active",
                  subscription_expires_at := some paidUntil }
              else u) }
          (SResult.ok txnId newId subscriptionAmount paymentUrl, s2)

/-- Result of the simulated create-subscription edge function; its ok
response reports the from-today paid_until instead of a payment url. -/
inductive SResultSim where
  | ok (txn_id : String) (subscription_id : Nat) (amount : Int) (paid_until : Int)
  | err (httpStatus : Nat) (message : String)
deriving Repr, DecidableEq

/-- The simulated create-subscription edge function.  Mirrors the
simulated source variant: role check, dummy txn id
SUB_timestamp_randomSuffix, no gateway call, the same extension math as
the gateway path, but the upsert activates the row immediately
(is_active true, status active) and the denormalized user mirror is
written the same way. -/
def createSubscriptionSimulated (am : Int → Nat → Int) (randSuffix : String)
    (now : Int) (newId : Nat) (s : Store) (uid : Nat)
    (duration_months : Nat) : SResultSim × Store :=
  match s.users.find? (fun u => u.id == uid) with
  | none => (SResultSim.err 400 "Only creators can purchase subscriptions", s)
  | some userProfile =>
    if !(userProfile.role == "creator") then
      (SResultSim.err 400 "Only creators can purchase subscriptions", s)
    else
      let txnId := subscriptionSimulatedTxnId now randSuffix
      let subscriptionAmount : Int := (100 : Int) * duration_months
      let paidUntil := am now duration_months
      match s.subscriptions.find? (fun x => x.user_id == uid) with
      | some existingSubscription =>
        let extendFrom :=
          if now < existingSubscription.paid_until then existingSubscription.paid_until
          else now
        let newPaidUntil := am extendFrom duration_months
        let s1 : Store := { s with subscriptions := s.subscriptions.map (fun (x : Subscription) =>
            if x.id == existingSubscription.id then
              { x with
                paid_until := newPaidUntil,
                is_active := true,
                last_payment_txn_id := txnId }
            else x) }
        let s2 : Store := { s1 with users := s1.users.map (fun (u : User) =>
            if u.id == uid then
              { u with
                subscription_status := "active",
                subscription_expires_at := some paidUntil }
            else u) }
        (SResultSim.ok txnId existingSubscription.id subscriptionAmount paidUntil, s2)
      | none =>
        let s1 : Store := { s with subscriptions := s.subscriptions ++
            [{ id := newId, user_id := uid, amount := subscriptionAmount,
               paid_until := paidUntil, is_active := true,
               last_payment_txn_id := txnId, status := "active" }] }
        let s2 : Store := { s1 with users := s1.users.map (fun (u : User) =>
            if u.id == uid then
              { u with
                subscription_status := "active",
                subscription_expires_at := some paidUntil }
            else u) }
        (SResultSim.ok txnId newId subscriptionAmount paidUntil, s2)

/-- Claim C4: subscription extension math of both intake variants.  In
the gateway path and in the simulated path alike: if no subscription
row exists the inserted row is paid through am now d (today plus d
months); if a row exists it is extended in place to
am (max paid_until now) d, so a renewal before expiry extends from the
existing date and a renewal after expiry extends from today.  Stated
for every month-addition function am. -/
theorem subscription_extension (am : Int → Nat → Int) (url randSuffix : String)
    (now : Int) (newId uid : Nat) (d : Nat) (s : Store) (u : User)
    (hu : s.users.find? (fun x => x.id == uid) = some u)
    (hrole : u.role = "creator") :
    (∀ ex, s.subscriptions.find? (fun x => x.user_id == uid) = some ex →
      ({ ex with
         paid_until := am (max ex.paid_until now) d,
         is_active := false,
         last_payment_txn_id := subscriptionGatewayTxnId uid now } : Subscription) ∈
        (createSubscriptionGateway am true url now newId s uid d).2.subscriptions) ∧
    (s.subscriptions.find? (fun x => x.user_id == uid) = none →
      ({ id := newId, user_id := uid, amount := (100 : Int) * d, paid_until := am now d,
         is_active := false, last_payment_txn_id := subscriptionGatewayTxnId uid now,
         status := "pending" } : Subscription) ∈
        (createSubscriptionGateway am true url now newId s uid d).2.subscriptions) ∧
    (∀ ex, s.subscriptions.find? (fun x => x.user_id == uid) = some ex →
      ({ ex with
         paid_until := am (max ex.paid_until now) d,
         is_active := true,
         last_payment_txn_id := subscriptionSimulatedTxnId now randSuffix } : Subscription) ∈
        (createSubscriptionSimulated am randSuffix now newId s uid d).2.subscriptions) ∧
    (s.subscriptions.find? (fun x => x.user_id == uid) = none →
      ({ id := newId, user_id := uid, amount := (100 : Int) * d, paid_until := am now d,
         is_active := true, last_payment_txn_id := subscriptionSimulatedTxnId now randSuffix,
         status := "active" } : Subscription) ∈
        (createSubscriptionSimulated am randSuffix now newId s uid d).2.subscriptions) := by
  have hmaxEq : ∀ ex : Subscription,
      (if now < ex.paid_until then ex.paid_until else now) = max ex.paid_until now := by
    intro ex
    rcases le_or_lt ex.paid_until now with h | h
    · rw [if_neg (by omega), max_eq_right h]
    · rw [if_pos h, max_eq_left (le_of_lt h)]
  refine ⟨?_, ?_, ?_, ?_⟩
  · intro ex hex
    have hmem : ex ∈ s.subscriptions := List.mem_of_find?_eq_some hex
    unfold createSubscriptionGateway
    rw [hu, hex]
    simp only [hrole]
    simp only [beq_self_eq_true, Bool.not_true, Bool.false_eq_true, if_false, Bool.not_false,
      if_true]
    refine List.mem_map.mpr ⟨ex, hmem, ?_⟩
    simp [hmaxEq ex]
  · intro hex
    unfold createSubscriptionGateway
    rw [hu, hex]
    simp [hrole]
  · intro ex hex
    have hmem : ex ∈ s.subscriptions := List.mem_of_find?_eq_some hex
    unfold createSubscriptionSimulated
    rw [hu, hex]
    simp only [hrole]
    simp only [beq_self_eq_true, Bool.not_true, Bool.false_eq_true, if_false, Bool.not_false,
      if_true]
    refine List.mem_map.mpr ⟨ex, hmem, ?_⟩
    simp [hmaxEq ex]
  · intro hex
    unfold createSubscriptionSimulated
    rw [hu, hex]
    simp [hrole]

def am30 (t : Int) (m : Nat) : Int := t + 30 * m

def c4User : User :=
  { id := 1, role := "creator", current_amount := 0,
    subscription_status := "inactive", subscription_expires_at := none }

def c4Sub : Subscription :=
  { id := 3, user_id := 1, amount := 100, paid_until := 200, is_active := true,
    last_payment_txn_id := "SUB_old", status := "active" }

def c4Store : Store :=
  { users := [c4User], donations := [], subscriptions := [c4Sub], withdrawals := [] }

def c4StoreEmpty : Store :=
  { users := [c4User], donations := [], subscriptions := [], withdrawals := [] }

/-- Witness for claim C4 with 30-day months, at now = 100: in both
intake variants a renewal of an existing row paid through 200 lands on
am30 (max 200 100) 1 = 230, and a first purchase lands on
am30 100 1 = 130. -/
theorem subscription_extension_witness :
    ({ c4Sub with
       paid_until := am30 (max c4Sub.paid_until 100) 1,
       is_active := false,
       last_payment_txn_id := subscriptionGatewayTxnId 1 100 } : Subscription) ∈
      (createSubscriptionGateway am30 true "url" 100 9 c4Store 1 1).2.subscriptions ∧
    ({ id := 9, user_id := 1, amount := (100 : Int) * 1, paid_until := am30 100 1,
       is_active := false, last_payment_txn_id := subscriptionGatewayTxnId 1 100,
       status := "pending" } : Subscription) ∈
      (createSubscriptionGateway am30 true "url" 100 9 c4StoreEmpty 1 1).2.subscriptions ∧
    ({ c4Sub with
       paid_until := am30 (max c4Sub.paid_until 100) 1,
       is_active := true,
       last_payment_txn_id := subscriptionSimulatedTxnId 100 "ABC123" } : Subscription) ∈
      (createSubscriptionSimulated am30 "ABC123" 100 9 c4Store 1 1).2.subscriptions ∧
    ({ id := 9, user_id := 1, amount := (100 : Int) * 1, paid_until := am30 100 1,
       is_active := true, last_payment_txn_id := subscriptionSimulatedTxnId 100 "ABC123",
       status := "active" } : Subscription) ∈
      (createSubscriptionSimulated am30 "ABC123" 100 9 c4StoreEmpty 1 1).2.subscriptions := by
  refine ⟨?_, ?_, ?_, ?_⟩
  · exact (subscription_extension am30 "url" "ABC123" 100 9 1 1 c4Store c4User
      (by decide) rfl).1 c4Sub (by decide)
  · exact (subscription_extension am30 "url" "ABC123" 100 9 1 1 c4StoreEmpty c4User
      (by decide) rfl).2.1 (by decide)
  · exact (subscription_extension am30 "url" "ABC123" 100 9 1 1 c4Store c4User
      (by decide) rfl).2.2.1 c4Sub (by decide)
  · exact (subscription_extension am30 "url" "ABC123" 100 9 1 1 c4StoreEmpty c4User
      (by decide) rfl).2.2.2 (by decide)

/-- Day number of a Gregorian calendar date (days since 1970-01-01, the
standard civil-calendar conversion, closed form); m is the one-based
month and a day past the month length rolls over into the following
month, exactly as JS Date normalization does. -/
def daysFromCivil (y m d : Int) : Int :=
  let y1 := if m ≤ 2 then y - 1 else y
  let era := y1 / 400
  let yoe := y1 - era * 400
  let mp := (m + 9) % 12
  let doy := (153 * mp + 2) / 5 + d - 1
  let doe := yoe * 365 + yoe / 4 - yoe / 100 + doy
  era * 146097 + doe - 719468

/-- Inverse of daysFromCivil: the (year, month, day) of a day number. -/
def civilFromDays (z : Int) : Int × Int × Int :=
  let z1 := z + 719468
  let era := z1 / 146097
  let doe := z1 - era * 146097
  let yoe := (doe - doe / 1460 + doe / 36524 - doe / 146096) / 365
  let y := yoe + era * 400
  let doy := doe - (365 * yoe + yoe / 4 - yoe / 100)
  let mp := (5 * doy + 2) / 153
  let d := doy - (153 * mp + 2) / 5 + 1
  let m := if mp < 10 then mp + 3 else mp - 9
  (if m ≤ 2 then y + 1 else y, m, d)

/-- The month addition the source actually performs: JS Date setMonth
(getMonth() + k), at day granularity.  The day of month is kept and the
month advanced; when the day exceeds the target month length the date
rolls over into the following month (JS normalization), which the
linear day term of daysFromCivil reproduces.  This collapses nearby
base dates: in the non-leap year 2026 both Jan 29 and Feb 1 plus one
month land on Mar 1. -/
def jsAddMonths (t : Int) (k : Nat) : Int :=
  let c := civilFromDays t
  let m0 := (c.2.1 - 1) + (k : Int)
  daysFromCivil (c.1 + m0 / 12) (m0 % 12 + 1) c.2.2

def c10Now : Int := daysFromCivil 2026 1 29

def c10User : User :=
  { id := 1, role := "creator", current_amount := 0,
    subscription_status := "inactive", subscription_expires_at := none }

def c10Sub : Subscription :=
  { id := 3, user_id := 1, amount := 100, paid_until := daysFromCivil 2026 2 1,
    is_active := true, last_payment_txn_id := "SUB_old", status := "active" }

def c10Store : Store :=
  { users := [c10User], donations := [], subscriptions := [c10Sub], withdrawals := [] }

/-- Counterexample to claim C10 as stated: with the month arithmetic JS
setMonth actually performs, a 1-month gateway renewal made on
2026-01-29 of a subscription still paid through 2026-02-01 (an
unexpired renewal) stores the row extended to 2026-03-01 and the user
mirror expiry also at 2026-03-01 - the setMonth rollover collapses the
two base dates, so the mirror expiry does not differ from the extended
row paid_until. -/
theorem subscription_mirror_divergence_counterexample :
    c10Now < c10Sub.paid_until ∧
    (createSubscriptionGateway jsAddMonths true "url" c10Now 9 c10Store 1 1).2.subscriptions =
      [{ c10Sub with
         paid_until := daysFromCivil 2026 3 1,
         is_active := false,
         last_payment_txn_id := subscriptionGatewayTxnId 1 c10Now }] ∧
    (createSubscriptionGateway jsAddMonths true "url" c10Now 9 c10Store 1 1).2.users =
      [{ c10User with
         subscription_status := "active",
         subscription_expires_at := some (daysFromCivil 2026 3 1) }] := by
  decide

/-- Claim C10 (amended): every successful gateway subscription intake
stores the subscription row with is_active false (awaiting the webhook)
while the same call sets the user mirror to subscription_status active
with expiry am now d computed from today - on a first purchase and on
any renewal alike; on a renewal the row itself is extended to
am (max paid_until now) d, so for an unexpired renewal the mirror
expiry differs from the extended row paid_until exactly when the month
addition maps the two base dates to different dates (JS setMonth
rollover can collapse them). -/
theorem subscription_mirror_divergence (am : Int → Nat → Int) (url : String) (now : Int)
    (newId uid : Nat) (d : Nat) (s : Store) (u : User)
    (hu : s.users.find? (fun x => x.id == uid) = some u)
    (hrole : u.role = "creator") :
    (s.subscriptions.find? (fun x => x.user_id == uid) = none →
      ({ id := newId, user_id := uid, amount := (100 : Int) * d, paid_until := am now d,
         is_active := false, last_payment_txn_id := subscriptionGatewayTxnId uid now,
         status := "pending" } : Subscription) ∈
        (createSubscriptionGateway am true url now newId s uid d).2.subscriptions ∧
      (createSubscriptionGateway am true url now newId s uid d).2.users.find?
          (fun x => x.id == uid) =
        some { u with
               subscription_status := "active",
               subscription_expires_at := some (am now d) }) ∧
    (∀ ex, s.subscriptions.find? (fun x => x.user_id == uid) = some ex →
      ({ ex with
         paid_until := am (max ex.paid_until now) d,
         is_active := false,
         last_payment_txn_id := subscriptionGatewayTxnId uid now } : Subscription) ∈
        (createSubscriptionGateway am true url now newId s uid d).2.subscriptions ∧
      (createSubscriptionGateway am true url now newId s uid d).2.users.find?
          (fun x => x.id == uid) =
        some { u with
               subscription_status := "active",
               subscription_expires_at := some (am now d) } ∧
      (now < ex.paid_until → am now d ≠ am ex.paid_until d →
        am now d ≠ am (max ex.paid_until now) d)) := by
  have hpu : (u.id == uid) = true := by
    have := List.find?_some hu
    simpa using this
  have hinv : ∀ x : User,
      ((if x.id == uid then
          { x with
            subscription_status := "active",
            subscription_expires_at := some (am now d) }
        else x).id == uid) = (x.id == uid) := by
    intro x
    by_cases hx : x.id == uid <;> simp [hx]
  constructor
  · intro hex
    constructor
    · unfold createSubscriptionGateway
      rw [hu, hex]
      simp [hrole]
    · have hstep : (createSubscriptionGateway am true url now newId s uid d).2.users
          = s.users.map (fun x =>
              if x.id == uid then
                { x with
                  subscription_status := "active",
                  subscription_expires_at := some (am now d) }
              else x) := by
        unfold createSubscriptionGateway
        rw [hu, hex]
        simp [hrole]
      rw [hstep, find?_map_invariant _ _ hinv, hu]
      simp [hpu]
      intro h
      exact absurd (by simpa using hpu) h
  · intro ex hex
    have hmem : ex ∈ s.subscriptions := List.mem_of_find?_eq_some hex
    have hmax : (if now < ex.paid_until then ex.paid_until else now) = max ex.paid_until now := by
      rcases le_or_lt ex.paid_until now with h | h
      · rw [if_neg (by omega), max_eq_right h]
      · rw [if_pos h, max_eq_left (le_of_lt h)]
    refine ⟨?_, ?_, ?_⟩
    · unfold createSubscriptionGateway
      rw [hu, hex]
      simp only [hrole]
      simp only [beq_self_eq_true, Bool.not_true, Bool.false_eq_true, if_false, Bool.not_false,
        if_true]
      refine List.mem_map.mpr ⟨ex, hmem, ?_⟩
      simp [hmax]
    · have hstep : (createSubscriptionGateway am true url now newId s uid d).2.users
          = s.users.map (fun x =>
              if x.id == uid then
                { x with
                  subscription_status := "active",
                  subscription_expires_at := some (am now d) }
              else x) := by
        unfold createSubscriptionGateway
        rw [hu, hex]
        simp [hrole]
      rw [hstep, find?_map_invariant _ _ hinv, hu]
      simp [hpu]
      intro h
      exact absurd (by simpa using hpu) h
    · intro h1 h2
      rw [max_eq_left (le_of_lt h1)]
      exact h2

/-- Witness for the amended claim C10 with 30-day months (which keep
distinct bases distinct) at now = 100: a first purchase mirrors active
with expiry 130, and a renewal of a row paid through 200 stores the row
inactive at 230 while the mirror reports expiry 130, which differs. -/
theorem subscription_mirror_divergence_witness :
    ({ c4Sub with
       paid_until := am30 (max c4Sub.paid_until 100) 1,
       is_active := false,
       last_payment_txn_id := subscriptionGatewayTxnId 1 100 } : Subscription) ∈
      (createSubscriptionGateway am30 true "url" 100 9 c4Store 1 1).2.subscriptions ∧
    (createSubscriptionGateway am30 true "url" 100 9 c4Store 1 1).2.users.find?
        (fun x => x.id == 1) =
      some { c4User with
             subscription_status := "active",
             subscription_expires_at := some (am30 100 1) } ∧
    am30 100 1 ≠ am30 (max c4Sub.paid_until 100) 1 ∧
    (createSubscriptionGateway am30 true "url" 100 9 c4StoreEmpty 1 1).2.users.find?
        (fun x => x.id == 1) =
      some { c4User with
             subscription_status := "active",
             subscription_expires_at := some (am30 100 1) } := by
  have hr := (subscription_mirror_divergence am30 "url" 100 9 1 1 c4Store c4User
      (by decide) rfl).2 c4Sub (by decide)
  have hn := (subscription_mirror_divergence am30 "url" 100 9 1 1 c4StoreEmpty c4User
      (by decide) rfl).1 (by decide)
  exact ⟨hr.1, hr.2.1, hr.2.2 (by decide) (by decide), hn.2⟩

/-- Payload of the process-donation edge function. -/
structure DonationRequest where
  creator_id : Nat
  amount : Int
  donor_name : Option String
  donor_email : Option String
  message : Option String
  is_anonymous : Bool
deriving Repr, DecidableEq

/-- Result of the process-donation edge function. -/
inductive DResult where
  | ok (txn_id : String) (donation_id : Nat) (payment_url : String)
  | err (httpStatus : Nat) (message : String)
deriving Repr, DecidableEq

/-- The access-time status rule shared by the donation page and the
intake precondition: a creator accepts donations when a subscription row
exists, is_active holds, and paid_until is not in the past. -/
def acceptingDonations (sub : Option Subscription) (now : Int) : Bool :=
  match sub with
  | none => false
  | some subscription => subscription.is_active && decide (now ≤ subscription.paid_until)

/-- The gateway-path process-donation edge function.  Mirrors the
source: amount validation (minimum 10), creator lookup by id and role,
subscription-active check, txn id generation, checkout call, then the
insert of a pending donation row; the balance is deliberately not
credited on this path. -/
def processDonationGateway (gatewayOk : Bool) (paymentUrl : String) (now : Int)
    (newId : Nat) (s : Store) (r : DonationRequest) : DResult × Store :=
  if r.amount < 10 then
    (DResult.err 400 "Invalid donation data. Minimum amount is 10 BDT.", s)
  else
    match s.users.find? (fun u => u.id == r.creator_id && u.role == "creator") with
    | none => (DResult.err 404 "Creator not found", s)
    | some _ =>
      match s.subscriptions.find? (fun x => x.user_id == r.creator_id) with
      | none => (DResult.err 400 "Creator subscription is not active", s)
      | some subscription =>
        if !subscription.is_active || decide (subscription.paid_until < now) then
          (DResult.err 400 "Creator subscription is not active", s)
        else
          let txnId := donationGatewayTxnId r.creator_id now
          if !gatewayOk then
            (DResult.err 500 "Internal server error", s)
          else
            (DResult.ok txnId newId paymentUrl,
             { s with donations := s.donations ++
                [{ id := newId, creator_id := r.creator_id, amount := r.amount,
                   donor_name := if r.is_anonymous then none else r.donor_name,
                   donor_email := if r.is_anonymous then none else r.donor_email,
                   message := r.message, is_anonymous := r.is_anonymous,
                   payment_status := "pending", txn_id := txnId,
                   payment_id := "rupantorpay_" ++ txnId }] })

/-- Claim C7: donation intake rejects every request made while the
creator subscription is not active (row absent, is_active false, or
paid_until before today) and every request below the 10 unit minimum;
in each such case the store is unchanged and the result is a client
error (400, or 404 when the creator lookup itself fails). -/
theorem donation_intake_requires_active_subscription (g : Bool) (url : String)
    (now : Int) (newId : Nat) (s : Store) (r : DonationRequest)
    (h : acceptingDonations (s.subscriptions.find? (fun x => x.user_id == r.creator_id)) now
          = false
       ∨ r.amount < 10) :
    (processDonationGateway g url now newId s r).2 = s ∧
    ∃ c m, (processDonationGateway g url now newId s r).1 = DResult.err c m ∧
      (c = 400 ∨ c = 404) := by
  unfold processDonationGateway
  by_cases hamt : r.amount < 10
  · simp [hamt]
  · rw [if_neg hamt]
    cases hu : s.users.find? (fun u => u.id == r.creator_id && u.role == "creator") with
    | none => simp
    | some up =>
      cases hsub : s.subscriptions.find? (fun x => x.user_id == r.creator_id) with
      | none => simp
      | some subscription =>
        have hinactive :
            (!subscription.is_active || decide (subscription.paid_until < now)) = true := by
          rcases h with h | h
          · rw [hsub] at h
            unfold acceptingDonations at h
            simp only [Bool.and_eq_false_iff] at h
            simp only [Bool.or_eq_true, Bool.not_eq_true', decide_eq_true_eq]
            rcases h with h | h
            · exact Or.inl h
            · simp only [decide_eq_false_iff_not] at h
              exact Or.inr (by omega)
          · exact absurd h hamt
        simp [hinactive]

def c7Store : Store :=
  { users := [{ id := 1, role := "creator", current_amount := 0,
                subscription_status := "inactive", subscription_expires_at := none }],
    donations := [],
    subscriptions := [{ id := 1, user_id := 1, amount := 100, paid_until := 200,
                        is_active := false, last_payment_txn_id := "SUB_x",
                        status := "pending" }],
    withdrawals := [] }

def c7Req : DonationRequest :=
  { creator_id := 1, amount := 50, donor_name := none, donor_email := none,
    message := none, is_anonymous := true }

/-- Witness for claim C7: a 50 unit donation to a creator whose
subscription row has is_active false is rejected with a 400 and the
store is untouched. -/
theorem donation_intake_requires_active_subscription_witness :
    (processDonationGateway true "url" 100 4 c7Store c7Req).2 = c7Store ∧
    (processDonationGateway true "url" 100 4 c7Store c7Req).1 =
      DResult.err 400 "Creator subscription is not active" := by
  refine ⟨(donation_intake_requires_active_subscription true "url" 100 4 c7Store c7Req
    (Or.inl (by decide))).1, by decide⟩

/-- The admin dashboard handleWithdrawal action: update withdrawals set
status = approved or rejected, processed_at = now where id =
withdrawalId.  Nothing else is touched; in particular no balance is
restored on rejection. -/
def handleWithdrawal (s : Store) (withdrawalId : Nat) (approve : Bool) (now : Int) : Store :=
  { s with withdrawals := s.withdrawals.map (fun w =>
      if w.id == withdrawalId then
        { w with
          status := if approve then "approved" else "rejected",
          processed_at := some now }
      else w) }

/-- Claim C9: the admin approve/reject action only sets status and
processed_at of the matching withdrawal row; users (so every balance),
donations and subscriptions are untouched, and every withdrawal row
keeps its id, owner, amount, method and bank fields, with non-matching
rows fully unchanged. -/
theorem admin_decision_frame (s : Store) (wid : Nat) (approve : Bool) (now : Int) :
    (handleWithdrawal s wid approve now).users = s.users ∧
    (handleWithdrawal s wid approve now).donations = s.donations ∧
    (handleWithdrawal s wid approve now).subscriptions = s.subscriptions ∧
    ∀ w2 ∈ (handleWithdrawal s wid approve now).withdrawals,
      ∃ w ∈ s.withdrawals,
        w2.id = w.id ∧ w2.user_id = w.user_id ∧ w2.amount = w.amount ∧
        w2.method = w.method ∧ w2.bank_name = w.bank_name ∧
        w2.bank_account_name = w.bank_account_name ∧
        w2.bank_account_number = w.bank_account_number ∧
        ((w2.status = w.status ∧ w2.processed_at = w.processed_at) ∨
         (w.id = wid ∧ w2.status = (if approve then "approved" else "rejected") ∧
          w2.processed_at = some now)) := by
  refine ⟨rfl, rfl, rfl, ?_⟩
  intro w2 hw2
  unfold handleWithdrawal at hw2
  simp only [List.mem_map] at hw2
  obtain ⟨w, hw, hEq⟩ := hw2
  refine ⟨w, hw, ?_⟩
  by_cases hid : (w.id == wid)
  · rw [if_pos hid] at hEq
    subst hEq
    exact ⟨rfl, rfl, rfl, rfl, rfl, rfl, rfl,
      Or.inr ⟨by simpa using hid, rfl, rfl⟩⟩
  · rw [if_neg hid] at hEq
    subst hEq
    exact ⟨rfl, rfl, rfl, rfl, rfl, rfl, rfl, Or.inl ⟨rfl, rfl⟩⟩

def c9Store : Store :=
  { users := [{ id := 1, role := "creator", current_amount := 40,
                subscription_status := "none", subscription_expires_at := none }],
    donations := [], subscriptions := [],
    withdrawals := [{ id := 2, user_id := 1, amount := 60, method := "bkash",
                      bank_name := "", bank_account_name := "", bank_account_number := "",
                      status := "pending", processed_at := none }] }

/-- Witness for claim C9: rejecting the pending withdrawal of 60 leaves
the creator balance at 40 (nothing restored) and only flips the row to
rejected with a processed_at stamp. -/
theorem admin_decision_frame_witness :
    (handleWithdrawal c9Store 2 false 500).users = c9Store.users ∧
    (handleWithdrawal c9Store 2 false 500).withdrawals =
      [{ id := 2, user_id := 1, amount := 60, method := "bkash", bank_name := "",
         bank_account_name := "", bank_account_number := "", status := "rejected",
         processed_at := some 500 }] := by
  refine ⟨(admin_decision_frame c9Store 2 false 500).1, by decide⟩
